import Mathlib

/-!
Resource module strawman: matcher configuration and driver.

A shallow embedding of `src/resource.cpp`: the output-format helpers
(`string_to_graph_format`, `graph_format_to_ext`), the subsystem registry
check (`subsystem_exist`), the matcher policy dispatch (`set_subsystems_use`)
and the driver (`main`), followed by theorems about them.

Conventions of the embedding:
* a C++ function that returns `int` and writes through a reference argument
  returns the pair (return code, new value of the argument);
* `resource_context_t *ctx` is passed and returned as a value;
* `std::map<std::string, T>` is an association list in which `map_assign`
  keeps one entry per key (the iteration order of the map is not modelled);
* `usage (code)`, which calls `exit (code)`, is the error case of `Except`.
-/

namespace flux_resource_model

/-! ## Strings -/

/-- The upper-cased characters of a string: what `boost::iequals` compares.
In the "C" locale `std::toupper` changes the letters a-z only. -/
def to_upper_copy (s : String) : List Char :=
  s.data.map Char.toUpper

/-- Case-insensitive equality `boost::iequals (a, b)`: same length and equal
characters after upper-casing each. -/
def iequals (a b : String) : Bool :=
  to_upper_copy a == to_upper_copy b

/-! ## Types declared in headers that are not part of `src/` -/

/-- Modelled from the spec: `resource_graph_format_t` is declared in a header
absent from `src/`; the three formats are the enumerators `resource.cpp` names
(DOT, GraphML, Cypher), and `OTHER` stands for any value of the enumeration
that `resource.cpp` does not name (the `default:` branch of the switch). -/
inductive resource_graph_format_t where
  | GRAPHVIZ_DOT
  | GRAPH_ML
  | NEO4J_CYPHER
  | OTHER
  deriving DecidableEq

/-- Modelled from the spec: `t_scale_t` is declared in a header absent from
`src/`; one scale tier per value that `--graph-scale` accepts. -/
inductive t_scale_t where
  | TS_MINI
  | TS_SMALL
  | TS_MEDIUM
  | TS_MEDPLUS
  | TS_LARGE
  | TS_LARGEST
  deriving DecidableEq

/-- Modelled from the spec: `sspec_t` is declared in a header absent from
`src/`; a specification unit, of which `resource.cpp` reads only the
subsystem tag `ssys`. -/
structure sspec_t where
  ssys : String
  deriving DecidableEq

/-- Modelled from the spec: `multi_subsystems_t`, the subsystem registry, is
declared in a header absent from `src/`; `resource.cpp` uses it as a
`std::map` from subsystem name to a string. -/
abbrev multi_subsystems_t := List (String × String)

/-- The keys of a map. -/
def map_keys {β : Type} (m : List (String × β)) : List String :=
  m.map Prod.fst

/-- Whether `m.find (k) != m.end ()`. -/
def map_contains {β : Type} (m : List (String × β)) (k : String) : Bool :=
  m.any fun p => p.1 == k

/-- The assignment `m[k] = v`: overwrites the value of an existing key, and
inserts the key otherwise. -/
def map_assign {β : Type} : List (String × β) → String → β → List (String × β)
  | [], k, v => [(k, v)]
  | (k', v') :: rest, k, v =>
    if k' = k then (k', v) :: rest else (k', v') :: map_assign rest k v

/-- Modelled from the spec: `resource_base_dfu_matcher_t` is declared in a
header absent from `src/`; a matcher configuration is a name plus the ordered
(subsystem name, relation filter) pairs it has activated. -/
structure resource_base_dfu_matcher_t where
  m_name : String
  m_subsystems : List (String × String)
  deriving DecidableEq

/-- Modelled from the spec: `setName (name)` of the matcher, absent from
`src/`. -/
def resource_base_dfu_matcher_t.set_matcher_name
    (m : resource_base_dfu_matcher_t) (n : String) : resource_base_dfu_matcher_t :=
  { m with m_name := n }

/-- Modelled from the spec: the name of the matcher, absent from `src/`. -/
def resource_base_dfu_matcher_t.get_matcher_name
    (m : resource_base_dfu_matcher_t) : String :=
  m.m_name

/-- Modelled from the spec: `addSubsystem (name, relationFilter)` of the
matcher, absent from `src/`; it appends the pair to the pairs configured so
far. The registry is not visible to the matcher: `set_subsystems_use` guards
each call with `subsystem_exist`. No policy of `set_subsystems_use` names one
subsystem twice. -/
def resource_base_dfu_matcher_t.add_subsystem
    (m : resource_base_dfu_matcher_t) (s tf : String) : resource_base_dfu_matcher_t :=
  { m with m_subsystems := m.m_subsystems ++ [(s, tf)] }

/-- Modelled from the spec: `activeSubsystems ()` of the matcher, absent from
`src/`; the ordered pairs configured so far, from which the subsystem
selectors of a filtered view are made. -/
def resource_base_dfu_matcher_t.get_subsystemsS
    (m : resource_base_dfu_matcher_t) : List (String × String) :=
  m.m_subsystems

/-- Modelled from the spec: `f_resource_graph_t` is declared in a header
absent from `src/`; a filtered view over the one graph of a run is identified
by the (subsystem, filter) pairs its vertex and edge selectors were made
from. -/
structure f_resource_graph_t where
  selector : List (String × String)
  deriving DecidableEq

/-! ## `test_params_t` and `resource_context_t` -/

/-- The parameters `struct test_params_t`. -/
structure test_params_t where
  scale : t_scale_t
  matcher_name : String
  o_fname : String
  o_fext : String
  o_format : resource_graph_format_t
  deriving DecidableEq

/-- The context `struct resource_context_t`; the graph database `db` and the
`traverser` have no observable state in `resource.cpp` and are left out. -/
structure resource_context_t where
  params : test_params_t
  subsystems : multi_subsystems_t
  resource_graph_views : List (String × f_resource_graph_t)
  matcher : resource_base_dfu_matcher_t
  deriving DecidableEq

/-- The function `set_default_params`. -/
def set_default_params (params : test_params_t) : test_params_t :=
  { params with
    scale := t_scale_t.TS_MINI
    matcher_name := "CA"
    o_fname := ""
    o_fext := "dot"
    o_format := resource_graph_format_t.GRAPHVIZ_DOT }

/-! ## Graph formats -/

/-- The function `string_to_graph_format (st, format)`: the return code and
the new value of `format`. -/
def string_to_graph_format (st : String) (format : resource_graph_format_t) :
    Int × resource_graph_format_t :=
  let rc : Int := 0
  if iequals st "dot" then
    (rc, resource_graph_format_t.GRAPHVIZ_DOT)
  else if iequals st "graphml" then
    (rc, resource_graph_format_t.GRAPH_ML)
  else if iequals st "cypher" then
    (rc, resource_graph_format_t.NEO4J_CYPHER)
  else
    (-1, format)

/-- The function `graph_format_to_ext (format, st)`: the return code and the
new value of `st`. -/
def graph_format_to_ext (format : resource_graph_format_t) (st : String) :
    Int × String :=
  let rc : Int := 0
  match format with
  | resource_graph_format_t.GRAPHVIZ_DOT => (rc, "dot")
  | resource_graph_format_t.GRAPH_ML => (rc, "graphml")
  | resource_graph_format_t.NEO4J_CYPHER => (rc, "cypher")
  | resource_graph_format_t.OTHER => (-1, st)

/-! ## Matcher configuration -/

/-- The function `subsystem_exist (ctx, name)`. Its second parameter is
unnamed in the source and is not read: the lookup is always of the key
"containment". -/
def subsystem_exist (ctx : resource_context_t) (_name : String) : Int :=
  let rc : Int := 0
  if map_contains ctx.subsystems "containment" = false then -1 else rc

/-- The statement
`if ((rc = subsystem_exist (ctx, q)) == 0) matcher.add_subsystem (s, tf);`
on the state (`rc`, `*ctx`). -/
def exist_then_add (q s tf : String) (st : Int × resource_context_t) :
    Int × resource_context_t :=
  let rc := subsystem_exist st.2 q
  if rc = 0 then
    (rc, { st.2 with matcher := st.2.matcher.add_subsystem s tf })
  else
    (rc, st.2)

/-- The statement
`if ((rc == 0) && (rc = subsystem_exist (ctx, q)) == 0) matcher.add_subsystem (s, tf);`
on the state (`rc`, `*ctx`): `&&` does not evaluate its right side, the
assignment to `rc` included, when `rc` is not 0. -/
def ok_and_exist_then_add (q s tf : String) (st : Int × resource_context_t) :
    Int × resource_context_t :=
  if st.1 = 0 then exist_then_add q s tf st else st

/-- The function `set_subsystems_use (ctx, n)`: the return code and the
context after the call. -/
def set_subsystems_use (ctx : resource_context_t) (n : String) :
    Int × resource_context_t :=
  let st : Int × resource_context_t :=
    (0, { ctx with matcher := ctx.matcher.set_matcher_name n })
  let matcher_type := st.2.matcher.get_matcher_name
  if iequals matcher_type "CA" then
    exist_then_add "containment" "containment" "contains" st
  else if iequals matcher_type "IBA" then
    exist_then_add "ibnet" "ibnet" "*" st
  else if iequals matcher_type "IBBA" then
    exist_then_add "ibnetbw" "ibnetbw" "*" st
  else if iequals matcher_type "PFS1BA" then
    exist_then_add "pfs1bw" "pfs1bw" "flows_up" st
  else if iequals matcher_type "PA" then
    exist_then_add "power" "power" "*" st
  else if iequals matcher_type "C+PFS1BA" then
    let st := exist_then_add "containment" "containment" "contains" st
    ok_and_exist_then_add "PFS1BA" "pfs1bw" "flows_up" st
  else if iequals matcher_type "C+IBA" then
    let st := exist_then_add "containment" "containment" "contains" st
    ok_and_exist_then_add "PFS1BA" "ibnet" "connected_up" st
  else if iequals matcher_type "C+PA" then
    let st := exist_then_add "containment" "containment" "contains" st
    ok_and_exist_then_add "PA" "power" "drawn" st
  else if iequals matcher_type "IB+IBBA" then
    let st := exist_then_add "ibnet" "ibnet" "connected_down" st
    ok_and_exist_then_add "IBBA" "ibnetbw" "*" st
  else if iequals matcher_type "C+P+IBA" then
    let st := exist_then_add "containment" "containment" "contains" st
    let st := exist_then_add "power" "power" "drawn" st
    ok_and_exist_then_add "IBA" "ibnet" "connected_up" st
  else if iequals matcher_type "ALL" then
    let st := exist_then_add "containment" "containment" "*" st
    let st := ok_and_exist_then_add "IBA" "ibnet" "*" st
    let st := ok_and_exist_then_add "IBBA" "ibnetbw" "*" st
    let st := ok_and_exist_then_add "PFS1BW" "pfs1bw" "*" st
    exist_then_add "power" "power" "*" st
  else
    (-1, st.2)

/-! ## The driver -/

/-- One option as `getopt_long` hands it to the `switch` of `main`, with its
`optarg`; `other` is every return value the `switch` has no case for (the
characters 'l' and 'd' of `OPTIONS`, and '?'). -/
inductive cli_option where
  | help
  | graph_scale (optarg : String)
  | matcher (optarg : String)
  | graph_format (optarg : String)
  | output (optarg : String)
  | other
  deriving DecidableEq

/-- One round of the option loop of `main`: the `switch (ch)`. The error case
is the exit code of `usage (code)`. `test_spec_string_to_scale` is declared in
a header absent from `src/` and is a parameter. -/
def parse_option (test_spec_string_to_scale : String → t_scale_t → Int × t_scale_t)
    (params : test_params_t) : cli_option → Except Int test_params_t
  | cli_option.help => Except.error 0
  | cli_option.graph_scale optarg =>
    let r := test_spec_string_to_scale optarg params.scale
    if r.1 ≠ 0 then Except.error 1 else Except.ok { params with scale := r.2 }
  | cli_option.matcher optarg => Except.ok { params with matcher_name := optarg }
  | cli_option.graph_format optarg =>
    let r := string_to_graph_format optarg params.o_format
    if r.1 ≠ 0 then Except.error 1
    else
      let params := { params with o_format := r.2 }
      let e := graph_format_to_ext params.o_format params.o_fext
      Except.ok { params with o_fext := e.2 }
  | cli_option.output optarg => Except.ok { params with o_fname := optarg }
  | cli_option.other => Except.error 1

/-- The option loop of `main`, `while ((ch = getopt_long (...)) != -1)`, over
the options of the command line in their order. -/
def parse_options (test_spec_string_to_scale : String → t_scale_t → Int × t_scale_t) :
    test_params_t → List cli_option → Except Int test_params_t
  | params, [] => Except.ok params
  | params, o :: rest =>
    match parse_option test_spec_string_to_scale params o with
    | Except.error code => Except.error code
    | Except.ok params => parse_options test_spec_string_to_scale params rest

/-- The registry loop of `main`:
`for (auto & s : spec_vect) ctx->subsystems[s->ssys] = "";`. -/
def register_subsystems (subsystems : multi_subsystems_t) (spec_vect : List sspec_t) :
    multi_subsystems_t :=
  spec_vect.foldl (fun m s => map_assign m s.ssys "") subsystems

/-- The value of `m[k]` for a key that may be absent. -/
def map_lookup {β : Type} (m : List (String × β)) (k : String) : Option β :=
  (m.find? fun p => p.1 == k).map Prod.snd

/-- What a run of `main` does that is visible from outside, in order. -/
inductive main_event where
  | error_in_generating_resources
  | load_the_matcher
  | filtered_view_built (matcher_name : String) (fg : f_resource_graph_t)
  | begin_walk (fg : f_resource_graph_t) (matcher : resource_base_dfu_matcher_t)
  | format_not_yet_implemented
  | graph_written (fn : String) (fg : Option f_resource_graph_t)
  deriving DecidableEq

/-- The function `write_to_graph (ctx)`. -/
def write_to_graph (ctx : resource_context_t) : List main_event :=
  if ctx.params.o_format ≠ resource_graph_format_t.GRAPHVIZ_DOT then
    [main_event.format_not_yet_implemented]
  else
    let mn := ctx.matcher.get_matcher_name
    let fg := map_lookup ctx.resource_graph_views mn
    let fn := ctx.params.o_fname ++ "." ++ ctx.params.o_fext
    [main_event.graph_written fn fg]

/-- The exit status `EXIT_SUCCESS`. -/
def EXIT_SUCCESS : Int := 0

/-- The exit status `EXIT_FAILURE`. -/
def EXIT_FAILURE : Int := 1

/-- The outcome of a run of `main`: its exit status, the events of the run,
and the context at the end (`none` when `usage` ended the run during option
parsing). -/
structure main_result where
  status : Int
  events : List main_event
  ctx : Option resource_context_t
  deriving DecidableEq

/-- The context `new resource_context_t ()` after `set_default_params`: an
empty registry, no view, a matcher with no active subsystem. -/
def initial_context : resource_context_t :=
  { params := set_default_params
      { scale := t_scale_t.TS_MINI, matcher_name := "", o_fname := "", o_fext := "",
        o_format := resource_graph_format_t.GRAPHVIZ_DOT }
    subsystems := []
    resource_graph_views := []
    matcher := { m_name := "", m_subsystems := [] } }

/-- The function `main`. The command line is the list of its options and
whether an operand is left after them (`optind != argc`). The functions
`test_spec_string_to_scale`, `test_spec_build` and `read_sspecs` (its return
code) are declared in headers absent from `src/` and are parameters. -/
def main (test_spec_string_to_scale : String → t_scale_t → Int × t_scale_t)
    (test_spec_build : t_scale_t → List sspec_t)
    (read_sspecs : List sspec_t → Int)
    (opts : List cli_option) (operand_left : Bool) : main_result :=
  let ctx := initial_context
  match parse_options test_spec_string_to_scale ctx.params opts with
  | Except.error code => { status := code, events := [], ctx := none }
  | Except.ok params =>
    let ctx := { ctx with params := params }
    if operand_left then { status := 1, events := [], ctx := none }
    else
      -- Build a test resource specification
      let spec_vect := test_spec_build ctx.params.scale
      let ctx := { ctx with subsystems := register_subsystems ctx.subsystems spec_vect }
      -- Generate a resource graph db
      let rc := read_sspecs spec_vect
      if rc ≠ 0 then
        { status := EXIT_FAILURE
          events := [main_event.error_in_generating_resources]
          ctx := some ctx }
      else
        -- Configure the matcher and its subsystem selector; the return code
        -- of set_subsystems_use is not read
        let ctx := (set_subsystems_use ctx ctx.params.matcher_name).2
        let fg : f_resource_graph_t := { selector := ctx.matcher.get_subsystemsS }
        let ctx := { ctx with
          resource_graph_views := map_assign ctx.resource_graph_views ctx.params.matcher_name fg }
        -- Traverse
        let walk := [main_event.load_the_matcher,
          main_event.filtered_view_built ctx.params.matcher_name fg,
          main_event.begin_walk fg ctx.matcher]
        -- Output the filtered resource graph
        let out := if ctx.params.o_fname ≠ "" then write_to_graph ctx else []
        { status := EXIT_SUCCESS, events := walk ++ out, ctx := some ctx }

/-! ## The catalog, as the specification words it -/

/-- The eleven names of the matcher catalog. -/
def catalog_names : List String :=
  ["CA", "IBA", "IBBA", "PFS1BA", "PA", "C+PFS1BA", "C+IBA", "C+PA", "IB+IBBA",
    "C+P+IBA", "ALL"]

/-- Whether a matcher name is, compared case-insensitively, in the catalog. -/
def is_catalog_name (n : String) : Bool :=
  catalog_names.any fun c => iequals n c

/-- The five subsystems of the test resource graph. -/
def all_subsystems : List String :=
  ["containment", "ibnet", "ibnetbw", "pfs1bw", "power"]

/-- The lookup table of the specification: each policy name with its ordered
(subsystem, filter) activation steps. -/
def policy_table : List (String × List (String × String)) :=
  [("CA", [("containment", "contains")]),
   ("IBA", [("ibnet", "*")]),
   ("IBBA", [("ibnetbw", "*")]),
   ("PFS1BA", [("pfs1bw", "flows_up")]),
   ("PA", [("power", "*")]),
   ("C+PFS1BA", [("containment", "contains"), ("pfs1bw", "flows_up")]),
   ("C+IBA", [("containment", "contains"), ("ibnet", "connected_up")]),
   ("C+PA", [("containment", "contains"), ("power", "drawn")]),
   ("IB+IBBA", [("ibnet", "connected_down"), ("ibnetbw", "*")]),
   ("C+P+IBA", [("containment", "contains"), ("power", "drawn"), ("ibnet", "connected_up")]),
   ("ALL", [("containment", "*"), ("ibnet", "*"), ("ibnetbw", "*"), ("pfs1bw", "*"),
     ("power", "*")])]

/-- A context whose registry holds the given subsystem names and whose matcher
has no active subsystem. -/
def context_with_registry (names : List String) : resource_context_t :=
  { initial_context with subsystems := names.map fun k => (k, "") }

/-- Whether the extension of the parameters names their format: read back by
`string_to_graph_format`, it gives the format of the parameters. -/
def ext_names_format (params : test_params_t) : Prop :=
  ∀ format, string_to_graph_format params.o_fext format = (0, params.o_format)

/-! ## Lemmas -/

theorem subsystem_exist_eq (ctx : resource_context_t) (q : String) :
    subsystem_exist ctx q = if map_contains ctx.subsystems "containment" then 0 else -1 := by
  unfold subsystem_exist
  cases map_contains ctx.subsystems "containment" <;> simp

theorem exist_then_add_present (q s tf : String) (st : Int × resource_context_t)
    (h : map_contains st.2.subsystems "containment" = true) :
    exist_then_add q s tf st
      = (0, { st.2 with matcher := st.2.matcher.add_subsystem s tf }) := by
  simp [exist_then_add, subsystem_exist_eq, h]

theorem exist_then_add_absent (q s tf : String) (st : Int × resource_context_t)
    (h : map_contains st.2.subsystems "containment" = false) :
    exist_then_add q s tf st = (-1, st.2) := by
  simp [exist_then_add, subsystem_exist_eq, h]

theorem iequals_of_iequals {n c : String} (h : iequals n c = true) (d : String) :
    iequals n d = iequals c d := by
  simp only [iequals, beq_iff_eq] at h
  simp only [iequals, h]

theorem ok_and_exist_then_add_failed (q s tf : String) (c : resource_context_t) :
    ok_and_exist_then_add q s tf (-1, c) = (-1, c) := by
  simp [ok_and_exist_then_add]

theorem ok_and_exist_then_add_ok (q s tf : String) (c : resource_context_t) :
    ok_and_exist_then_add q s tf (0, c) = exist_then_add q s tf (0, c) := by
  simp [ok_and_exist_then_add]

theorem exist_then_add_absent_mk (q s tf : String) (rc : Int) (ctx : resource_context_t)
    (m : resource_base_dfu_matcher_t)
    (h : map_contains ctx.subsystems "containment" = false) :
    exist_then_add q s tf (rc, { ctx with matcher := m }) = (-1, { ctx with matcher := m }) := by
  simp [exist_then_add, subsystem_exist_eq, h]

theorem set_subsystems_use_absent (ctx : resource_context_t) (n : String)
    (h : map_contains ctx.subsystems "containment" = false) :
    set_subsystems_use ctx n
      = (-1, { ctx with matcher := ctx.matcher.set_matcher_name n }) := by
  simp only [set_subsystems_use, exist_then_add_absent_mk _ _ _ _ _ _ h,
    ok_and_exist_then_add_failed, ite_self]

theorem exist_then_add_present_mk (q s tf : String) (rc : Int) (ctx : resource_context_t)
    (m : resource_base_dfu_matcher_t)
    (h : map_contains ctx.subsystems "containment" = true) :
    exist_then_add q s tf (rc, { ctx with matcher := m })
      = (0, { ctx with matcher := m.add_subsystem s tf }) := by
  simp [exist_then_add, subsystem_exist_eq, h]

theorem set_subsystems_use_not_catalog (ctx : resource_context_t) (n : String)
    (h : is_catalog_name n = false) :
    set_subsystems_use ctx n
      = (-1, { ctx with matcher := ctx.matcher.set_matcher_name n }) := by
  simp only [is_catalog_name, catalog_names, List.any_cons, List.any_nil, Bool.or_false,
    Bool.or_eq_false_iff] at h
  obtain ⟨h1, h2, h3, h4, h5, h6, h7, h8, h9, h10, h11⟩ := h
  simp only [set_subsystems_use, resource_base_dfu_matcher_t.get_matcher_name,
    resource_base_dfu_matcher_t.set_matcher_name, h1, h2, h3, h4, h5, h6, h7, h8, h9, h10, h11, Bool.false_eq_true, if_false]

theorem set_subsystems_use_of_policy (ctx : resource_context_t) (n : String)
    (h : map_contains ctx.subsystems "containment" = true)
    (e : String × List (String × String)) (he : e ∈ policy_table)
    (hn : iequals n e.1 = true) :
    set_subsystems_use ctx n
      = (0, { ctx with
          matcher := { m_name := n, m_subsystems := ctx.matcher.m_subsystems ++ e.2 } }) := by
  simp only [policy_table, List.mem_cons, List.mem_singleton, List.not_mem_nil, or_false] at he
  rcases he with rfl | rfl | rfl | rfl | rfl | rfl | rfl | rfl | rfl | rfl | rfl
  all_goals first
    | have h1 : iequals n "CA" = true := (iequals_of_iequals hn "CA").trans (by decide)
    | have h1 : iequals n "CA" = false := (iequals_of_iequals hn "CA").trans (by decide)
  all_goals first
    | have h2 : iequals n "IBA" = true := (iequals_of_iequals hn "IBA").trans (by decide)
    | have h2 : iequals n "IBA" = false := (iequals_of_iequals hn "IBA").trans (by decide)
  all_goals first
    | have h3 : iequals n "IBBA" = true := (iequals_of_iequals hn "IBBA").trans (by decide)
    | have h3 : iequals n "IBBA" = false := (iequals_of_iequals hn "IBBA").trans (by decide)
  all_goals first
    | have h4 : iequals n "PFS1BA" = true := (iequals_of_iequals hn "PFS1BA").trans (by decide)
    | have h4 : iequals n "PFS1BA" = false := (iequals_of_iequals hn "PFS1BA").trans (by decide)
  all_goals first
    | have h5 : iequals n "PA" = true := (iequals_of_iequals hn "PA").trans (by decide)
    | have h5 : iequals n "PA" = false := (iequals_of_iequals hn "PA").trans (by decide)
  all_goals first
    | have h6 : iequals n "C+PFS1BA" = true := (iequals_of_iequals hn "C+PFS1BA").trans (by decide)
    | have h6 : iequals n "C+PFS1BA" = false := (iequals_of_iequals hn "C+PFS1BA").trans (by decide)
  all_goals first
    | have h7 : iequals n "C+IBA" = true := (iequals_of_iequals hn "C+IBA").trans (by decide)
    | have h7 : iequals n "C+IBA" = false := (iequals_of_iequals hn "C+IBA").trans (by decide)
  all_goals first
    | have h8 : iequals n "C+PA" = true := (iequals_of_iequals hn "C+PA").trans (by decide)
    | have h8 : iequals n "C+PA" = false := (iequals_of_iequals hn "C+PA").trans (by decide)
  all_goals first
    | have h9 : iequals n "IB+IBBA" = true := (iequals_of_iequals hn "IB+IBBA").trans (by decide)
    | have h9 : iequals n "IB+IBBA" = false := (iequals_of_iequals hn "IB+IBBA").trans (by decide)
  all_goals first
    | have h10 : iequals n "C+P+IBA" = true := (iequals_of_iequals hn "C+P+IBA").trans (by decide)
    | have h10 : iequals n "C+P+IBA" = false := (iequals_of_iequals hn "C+P+IBA").trans (by decide)
  all_goals first
    | have h11 : iequals n "ALL" = true := (iequals_of_iequals hn "ALL").trans (by decide)
    | have h11 : iequals n "ALL" = false := (iequals_of_iequals hn "ALL").trans (by decide)
  all_goals
    simp only [set_subsystems_use, resource_base_dfu_matcher_t.get_matcher_name,
      resource_base_dfu_matcher_t.set_matcher_name, h1, h2, h3, h4, h5, h6, h7, h8, h9, h10, h11, Bool.false_eq_true, if_false, if_true,
      exist_then_add_present_mk _ _ _ _ _ _ h, ok_and_exist_then_add_ok,
      resource_base_dfu_matcher_t.add_subsystem, List.append_assoc, List.singleton_append,
      List.cons_append, List.nil_append]

theorem is_catalog_name_iff (n : String) :
    is_catalog_name n = true ↔ ∃ e ∈ policy_table, iequals n e.1 = true := by
  simp [is_catalog_name, catalog_names, policy_table]

theorem set_subsystems_use_rc (ctx : resource_context_t) (n : String) :
    (set_subsystems_use ctx n).1
      = if is_catalog_name n = true ∧ map_contains ctx.subsystems "containment" = true
        then 0 else -1 := by
  cases hc : map_contains ctx.subsystems "containment"
  · simp [set_subsystems_use_absent ctx n hc]
  · cases hn : is_catalog_name n
    · simp [set_subsystems_use_not_catalog ctx n hn]
    · obtain ⟨e, he, hne⟩ := (is_catalog_name_iff n).mp hn
      simp [set_subsystems_use_of_policy ctx n hc e he hne]

theorem set_subsystems_use_failed (ctx : resource_context_t) (n : String)
    (h : (set_subsystems_use ctx n).1 ≠ 0) :
    set_subsystems_use ctx n
      = (-1, { ctx with matcher := ctx.matcher.set_matcher_name n }) := by
  cases hc : map_contains ctx.subsystems "containment"
  · exact set_subsystems_use_absent ctx n hc
  · cases hn : is_catalog_name n
    · exact set_subsystems_use_not_catalog ctx n hn
    · exact absurd (by simp [set_subsystems_use_rc, hc, hn]) h

theorem set_subsystems_use_frame (ctx : resource_context_t) (n : String) :
    ∃ m, (set_subsystems_use ctx n).2 = { ctx with matcher := m } := by
  cases hc : map_contains ctx.subsystems "containment"
  · exact ⟨_, by rw [set_subsystems_use_absent ctx n hc]⟩
  · cases hn : is_catalog_name n
    · exact ⟨_, by rw [set_subsystems_use_not_catalog ctx n hn]⟩
    · obtain ⟨e, he, hne⟩ := (is_catalog_name_iff n).mp hn
      exact ⟨_, by rw [set_subsystems_use_of_policy ctx n hc e he hne]⟩

theorem mem_map_keys_map_assign {β : Type} (m : List (String × β)) (k : String) (v : β)
    (x : String) :
    x ∈ map_keys (map_assign m k v) ↔ x = k ∨ x ∈ map_keys m := by
  induction m with
  | nil => simp [map_assign, map_keys]
  | cons p rest ih =>
    obtain ⟨k', v'⟩ := p
    by_cases hk : k' = k
    · subst hk
      simp [map_assign, map_keys]
    · simp only [map_assign, hk, if_false]
      simp only [map_keys, List.map_cons, List.mem_cons] at ih ⊢
      rw [ih]
      tauto

theorem nodup_map_keys_map_assign {β : Type} (m : List (String × β)) (k : String) (v : β)
    (h : (map_keys m).Nodup) : (map_keys (map_assign m k v)).Nodup := by
  induction m with
  | nil => simp [map_assign, map_keys]
  | cons p rest ih =>
    obtain ⟨k', v'⟩ := p
    by_cases hk : k' = k
    · subst hk
      simpa [map_assign, map_keys] using h
    · simp only [map_assign, hk, if_false]
      simp only [map_keys, List.map_cons, List.nodup_cons] at h ⊢
      refine ⟨?_, ih h.2⟩
      intro hmem
      have := (mem_map_keys_map_assign rest k v k').mp hmem
      rcases this with rfl | h'
      · exact hk rfl
      · exact h.1 h'

theorem mem_map_keys_register_subsystems (spec_vect : List sspec_t)
    (subsystems : multi_subsystems_t) (x : String) :
    x ∈ map_keys (register_subsystems subsystems spec_vect)
      ↔ x ∈ map_keys subsystems ∨ x ∈ spec_vect.map sspec_t.ssys := by
  induction spec_vect generalizing subsystems with
  | nil => simp [register_subsystems]
  | cons s rest ih =>
    have := ih (map_assign subsystems s.ssys "")
    simp only [register_subsystems, List.foldl_cons] at this ⊢
    rw [this, mem_map_keys_map_assign]
    simp only [List.map_cons, List.mem_cons]
    tauto

theorem nodup_map_keys_register_subsystems (spec_vect : List sspec_t)
    (subsystems : multi_subsystems_t) (h : (map_keys subsystems).Nodup) :
    (map_keys (register_subsystems subsystems spec_vect)).Nodup := by
  induction spec_vect generalizing subsystems with
  | nil => simpa [register_subsystems] using h
  | cons s rest ih =>
    have := ih (map_assign subsystems s.ssys "") (nodup_map_keys_map_assign _ _ _ h)
    simpa only [register_subsystems, List.foldl_cons] using this

theorem string_to_graph_format_dot (format : resource_graph_format_t) :
    string_to_graph_format "dot" format = (0, resource_graph_format_t.GRAPHVIZ_DOT) := by
  simp only [string_to_graph_format, show iequals "dot" "dot" = true from by decide, if_true]

theorem string_to_graph_format_graphml (format : resource_graph_format_t) :
    string_to_graph_format "graphml" format = (0, resource_graph_format_t.GRAPH_ML) := by
  simp only [string_to_graph_format, show iequals "graphml" "dot" = false from by decide,
    show iequals "graphml" "graphml" = true from by decide, if_true, Bool.false_eq_true,
    if_false]

theorem string_to_graph_format_cypher (format : resource_graph_format_t) :
    string_to_graph_format "cypher" format = (0, resource_graph_format_t.NEO4J_CYPHER) := by
  simp only [string_to_graph_format, show iequals "cypher" "dot" = false from by decide,
    show iequals "cypher" "graphml" = false from by decide,
    show iequals "cypher" "cypher" = true from by decide, if_true, Bool.false_eq_true,
    if_false]

theorem graph_format_round_trip (st : String) (format : resource_graph_format_t)
    (h : (string_to_graph_format st format).1 = 0) (ext : String)
    (format' : resource_graph_format_t) :
    string_to_graph_format
        (graph_format_to_ext (string_to_graph_format st format).2 ext).2 format'
      = (0, (string_to_graph_format st format).2) := by
  by_cases h1 : iequals st "dot" = true
  · have hv : string_to_graph_format st format = (0, resource_graph_format_t.GRAPHVIZ_DOT) := by
      simp only [string_to_graph_format, h1, if_true]
    rw [hv]
    exact string_to_graph_format_dot format'
  · by_cases h2 : iequals st "graphml" = true
    · have hv : string_to_graph_format st format = (0, resource_graph_format_t.GRAPH_ML) := by
        simp only [string_to_graph_format, h1, h2, if_true, if_false, Bool.false_eq_true]
      rw [hv]
      exact string_to_graph_format_graphml format'
    · by_cases h3 : iequals st "cypher" = true
      · have hv : string_to_graph_format st format
            = (0, resource_graph_format_t.NEO4J_CYPHER) := by
          simp only [string_to_graph_format, h1, h2, h3, if_true, if_false, Bool.false_eq_true]
        rw [hv]
        exact string_to_graph_format_cypher format'
      · simp [string_to_graph_format, h1, h2, h3] at h

theorem parse_option_ext_names_format
    (test_spec_string_to_scale : String → t_scale_t → Int × t_scale_t)
    (params params' : test_params_t) (o : cli_option)
    (h : ext_names_format params)
    (ho : parse_option test_spec_string_to_scale params o = Except.ok params') :
    ext_names_format params' := by
  cases o with
  | help => simp [parse_option] at ho
  | other => simp [parse_option] at ho
  | graph_scale optarg =>
    simp only [parse_option] at ho
    split_ifs at ho
    cases ho
    exact h
  | matcher optarg =>
    simp only [parse_option] at ho
    cases ho
    exact h
  | output optarg =>
    simp only [parse_option] at ho
    cases ho
    exact h
  | graph_format optarg =>
    simp only [parse_option] at ho
    split_ifs at ho with hrc
    cases ho
    intro format
    exact graph_format_round_trip optarg params.o_format (not_not.mp hrc) params.o_fext format

theorem parse_options_ext_names_format
    (test_spec_string_to_scale : String → t_scale_t → Int × t_scale_t)
    (opts : List cli_option) (params params' : test_params_t)
    (h : ext_names_format params)
    (ho : parse_options test_spec_string_to_scale params opts = Except.ok params') :
    ext_names_format params' := by
  induction opts generalizing params with
  | nil =>
    simp only [parse_options] at ho
    cases ho
    exact h
  | cons o rest ih =>
    simp only [parse_options] at ho
    cases hp : parse_option test_spec_string_to_scale params o with
    | error code => simp [hp] at ho
    | ok p =>
      rw [hp] at ho
      exact ih p (parse_option_ext_names_format _ _ _ _ h hp) ho

theorem main_registry (test_spec_string_to_scale : String → t_scale_t → Int × t_scale_t)
    (test_spec_build : t_scale_t → List sspec_t) (read_sspecs : List sspec_t → Int)
    (opts : List cli_option) (operand_left : Bool) (c : resource_context_t)
    (hc : (main test_spec_string_to_scale test_spec_build read_sspecs opts operand_left).ctx
      = some c) :
    c.subsystems = register_subsystems [] (test_spec_build c.params.scale) := by
  unfold main at hc
  cases hp : parse_options test_spec_string_to_scale initial_context.params opts with
  | error code => simp [hp] at hc
  | ok params =>
    simp only [hp] at hc
    obtain ⟨m, hm⟩ := set_subsystems_use_frame
      { initial_context with
        params := params
        subsystems := register_subsystems initial_context.subsystems
          (test_spec_build params.scale) } params.matcher_name
    split_ifs at hc
    all_goals
      simp only [Option.some.injEq] at hc
      subst hc
      first
        | rfl
        | (simp only [hm]
           rfl)

/-! ## Claims -/

/-- C1, evaluated where it fails: on a registry that holds only "containment",
`set_subsystems_use` with the name "ALL" returns 0 and activates all five
subsystems, so the active list names subsystems (ibnet, ibnetbw, pfs1bw,
power) that are not keys of the registry. -/
theorem set_subsystems_use_all_activates_unregistered :
    set_subsystems_use (context_with_registry ["containment"]) "ALL"
      = (0, { context_with_registry ["containment"] with
          matcher := { m_name := "ALL", m_subsystems :=
            [("containment", "*"), ("ibnet", "*"), ("ibnetbw", "*"), ("pfs1bw", "*"),
              ("power", "*")] } })
    ∧ ¬ (∀ p ∈ (set_subsystems_use (context_with_registry ["containment"]) "ALL").2.matcher.m_subsystems,
          map_contains (context_with_registry ["containment"]).subsystems p.1 = true) := by
  decide

/-- C2, evaluated where it fails: on a registry that holds only "containment",
hence not "ibnet", `set_subsystems_use` with the name "IBA" returns 0 and
activates (ibnet, *). -/
theorem set_subsystems_use_iba_without_ibnet :
    map_contains (context_with_registry ["containment"]).subsystems "ibnet" = false
    ∧ set_subsystems_use (context_with_registry ["containment"]) "IBA"
      = (0, { context_with_registry ["containment"] with
          matcher := { m_name := "IBA", m_subsystems := [("ibnet", "*")] } }) := by
  decide

/-- C3: for every context and every matcher name that is not,
case-insensitively, one of the eleven catalog names, `set_subsystems_use`
returns -1 and leaves the list of active subsystems unchanged: the context
after the call is the context before it with the matcher name set. -/
theorem set_subsystems_use_unknown_matcher (ctx : resource_context_t) (n : String)
    (h : ∀ c ∈ catalog_names, iequals n c = false) :
    (set_subsystems_use ctx n).1 = -1
    ∧ (set_subsystems_use ctx n).2.matcher.m_subsystems = ctx.matcher.m_subsystems
    ∧ (set_subsystems_use ctx n).2
        = { ctx with matcher := { ctx.matcher with m_name := n } } := by
  have hn : is_catalog_name n = false := by
    simp only [is_catalog_name, List.any_eq_false]
    intro c hc
    simp [h c hc]
  rw [set_subsystems_use_not_catalog ctx n hn]
  exact ⟨rfl, rfl, rfl⟩

/-- Witness of C3: the name "XYZ" on a registry holding all five subsystems
and a matcher that already has an active subsystem. -/
theorem set_subsystems_use_unknown_matcher_witness :
    (∀ c ∈ catalog_names, iequals "XYZ" c = false)
    ∧ (set_subsystems_use
        { context_with_registry all_subsystems with
          matcher := { m_name := "CA", m_subsystems := [("containment", "contains")] } }
        "XYZ").1 = -1
    ∧ (set_subsystems_use
        { context_with_registry all_subsystems with
          matcher := { m_name := "CA", m_subsystems := [("containment", "contains")] } }
        "XYZ").2.matcher.m_subsystems = [("containment", "contains")] :=
  ⟨by decide,
   (set_subsystems_use_unknown_matcher _ "XYZ" (by decide)).1,
   (set_subsystems_use_unknown_matcher _ "XYZ" (by decide)).2.1⟩

/-- C4: on a registry that contains all five subsystems and a matcher with no
active subsystem, for each entry (name, steps) of the lookup table
`policy_table` (whose names are the eleven catalog names), `set_subsystems_use`
with that name, or any spelling of it in another case, returns 0 and leaves
the matcher with exactly the steps of the entry as its active list, in order;
the steps of "ALL" are every subsystem with the wildcard filter. -/
theorem set_subsystems_use_catalog (ctx : resource_context_t)
    (hreg : ∀ s ∈ all_subsystems, map_contains ctx.subsystems s = true)
    (hm : ctx.matcher.m_subsystems = [])
    (e : String × List (String × String)) (he : e ∈ policy_table) :
    set_subsystems_use ctx e.1
        = (0, { ctx with matcher := { m_name := e.1, m_subsystems := e.2 } })
    ∧ (∀ n, iequals n e.1 = true →
        set_subsystems_use ctx n
          = (0, { ctx with matcher := { m_name := n, m_subsystems := e.2 } }))
    ∧ policy_table.map Prod.fst = catalog_names
    ∧ policy_table.lookup "ALL" = some (all_subsystems.map fun s => (s, "*")) := by
  have hc : map_contains ctx.subsystems "containment" = true :=
    hreg "containment" (by simp [all_subsystems])
  have key : ∀ n, iequals n e.1 = true →
      set_subsystems_use ctx n
        = (0, { ctx with matcher := { m_name := n, m_subsystems := e.2 } }) := by
    intro n hn
    rw [set_subsystems_use_of_policy ctx n hc e he hn, hm, List.nil_append]
  refine ⟨key e.1 ?_, key, by decide, by decide⟩
  simp [iequals]

/-- Witness of C4: the three-step policy "C+P+IBA" on the registry of all five
subsystems. -/
theorem set_subsystems_use_catalog_witness :
    (∀ s ∈ all_subsystems,
      map_contains (context_with_registry all_subsystems).subsystems s = true)
    ∧ set_subsystems_use (context_with_registry all_subsystems) "C+P+IBA"
      = (0, { context_with_registry all_subsystems with
          matcher := { m_name := "C+P+IBA", m_subsystems :=
            [("containment", "contains"), ("power", "drawn"), ("ibnet", "connected_up")] } }) :=
  ⟨by decide,
   (set_subsystems_use_catalog (context_with_registry all_subsystems) (by decide) rfl
    ("C+P+IBA", [("containment", "contains"), ("power", "drawn"), ("ibnet", "connected_up")])
    (by decide)).1⟩

/-- C5, evaluated where it fails: on a registry that holds "containment" but
not "power", `set_subsystems_use` with the name "C+PA" returns 0 and the
active list is [(containment, contains), (power, drawn)]: the power step does
not fail. -/
theorem set_subsystems_use_cpa_without_power :
    map_contains (context_with_registry ["containment"]).subsystems "containment" = true
    ∧ map_contains (context_with_registry ["containment"]).subsystems "power" = false
    ∧ set_subsystems_use (context_with_registry ["containment"]) "C+PA"
      = (0, { context_with_registry ["containment"] with
          matcher := { m_name := "C+PA", m_subsystems :=
            [("containment", "contains"), ("power", "drawn")] } }) := by
  decide

/-- C6, evaluated where it fails: a run of `main` with `--matcher XYZ`, a name
outside the catalog, on a specification of the containment subsystem whose
graph generation succeeds. `set_subsystems_use` returns -1 on the context
`main` calls it with, and `main` builds the filtered view, begins the walk
and returns `EXIT_SUCCESS`. -/
theorem main_ignores_matcher_failure :
    (set_subsystems_use
      { initial_context with
        params := { initial_context.params with matcher_name := "XYZ" }
        subsystems := [("containment", "")] } "XYZ").1 = -1
    ∧ (main (fun _ scale => (0, scale)) (fun _ => [{ ssys := "containment" }]) (fun _ => 0)
        [cli_option.matcher "XYZ"] false).status = EXIT_SUCCESS
    ∧ (main (fun _ scale => (0, scale)) (fun _ => [{ ssys := "containment" }]) (fun _ => 0)
        [cli_option.matcher "XYZ"] false).events
      = [main_event.load_the_matcher,
         main_event.filtered_view_built "XYZ" { selector := [] },
         main_event.begin_walk { selector := [] } { m_name := "XYZ", m_subsystems := [] }] := by
  decide

/-- C7: for each of the three formats, `graph_format_to_ext` returns 0 and
yields "dot", "graphml", "cypher" respectively, and `string_to_graph_format`
on that extension returns 0 and yields the format again, whatever the
reference arguments held before; and after the option loop of `main` has
accepted a command line, `string_to_graph_format` on the extension of the
parameters returns 0 and yields their format. -/
theorem graph_format_ext_round_trip :
    (∀ st format,
      graph_format_to_ext resource_graph_format_t.GRAPHVIZ_DOT st = (0, "dot")
      ∧ string_to_graph_format
          (graph_format_to_ext resource_graph_format_t.GRAPHVIZ_DOT st).2 format
        = (0, resource_graph_format_t.GRAPHVIZ_DOT))
    ∧ (∀ st format,
      graph_format_to_ext resource_graph_format_t.GRAPH_ML st = (0, "graphml")
      ∧ string_to_graph_format
          (graph_format_to_ext resource_graph_format_t.GRAPH_ML st).2 format
        = (0, resource_graph_format_t.GRAPH_ML))
    ∧ (∀ st format,
      graph_format_to_ext resource_graph_format_t.NEO4J_CYPHER st = (0, "cypher")
      ∧ string_to_graph_format
          (graph_format_to_ext resource_graph_format_t.NEO4J_CYPHER st).2 format
        = (0, resource_graph_format_t.NEO4J_CYPHER))
    ∧ (∀ test_spec_string_to_scale opts params,
      parse_options test_spec_string_to_scale initial_context.params opts = Except.ok params →
      ∀ format, string_to_graph_format params.o_fext format = (0, params.o_format)) := by
  refine ⟨fun st format => ⟨rfl, ?_⟩, fun st format => ⟨rfl, ?_⟩,
    fun st format => ⟨rfl, ?_⟩, ?_⟩
  · exact string_to_graph_format_dot format
  · exact string_to_graph_format_graphml format
  · exact string_to_graph_format_cypher format
  · intro f opts params ho
    exact parse_options_ext_names_format f opts initial_context.params params
      (fun format => string_to_graph_format_dot format) ho

/-- Witness of C7: the command line `--graph-format GraphML --output o` is
accepted, and leaves the extension "graphml" with the format `GRAPH_ML`. -/
theorem graph_format_ext_round_trip_witness :
    parse_options (fun _ scale => (0, scale)) initial_context.params
        [cli_option.graph_format "GraphML", cli_option.output "o"]
      = Except.ok { initial_context.params with
          o_fname := "o", o_fext := "graphml", o_format := resource_graph_format_t.GRAPH_ML }
    ∧ string_to_graph_format "graphml" resource_graph_format_t.GRAPHVIZ_DOT
      = (0, resource_graph_format_t.GRAPH_ML) :=
  ⟨rfl,
   graph_format_ext_round_trip.2.2.2 (fun _ scale => (0, scale))
    [cli_option.graph_format "GraphML", cli_option.output "o"]
    { initial_context.params with
      o_fname := "o", o_fext := "graphml", o_format := resource_graph_format_t.GRAPH_ML }
    rfl resource_graph_format_t.GRAPHVIZ_DOT⟩

/-- C8: for every list of specification units, the registry loop of `main`
run on the empty registry yields a registry whose keys are exactly the
subsystem tags of the units: a name is a key if and only if it is the tag of
a unit, and no key is held twice; and the registry of the context that a run
of `main` ends with has exactly the tags of the specification built for the
scale of the run as its keys. -/
theorem register_subsystems_keys (spec_vect : List sspec_t) :
    (∀ k, k ∈ map_keys (register_subsystems [] spec_vect)
        ↔ k ∈ spec_vect.map sspec_t.ssys)
    ∧ (map_keys (register_subsystems [] spec_vect)).Nodup
    ∧ (∀ test_spec_string_to_scale test_spec_build read_sspecs opts operand_left c,
        (main test_spec_string_to_scale test_spec_build read_sspecs opts operand_left).ctx
          = some c →
        ∀ k, k ∈ map_keys c.subsystems
          ↔ k ∈ (test_spec_build c.params.scale).map sspec_t.ssys) := by
  have keys : ∀ (l : List sspec_t) (k : String),
      k ∈ map_keys (register_subsystems [] l) ↔ k ∈ l.map sspec_t.ssys := by
    intro l k
    rw [mem_map_keys_register_subsystems]
    simp [map_keys]
  refine ⟨keys spec_vect,
    nodup_map_keys_register_subsystems spec_vect [] (by simp [map_keys]), ?_⟩
  intro f build read opts operand_left c hc k
  rw [main_registry f build read opts operand_left c hc]
  exact keys _ k

/-- C9: for every context and matcher name, `set_subsystems_use` returns 0 if
and only if the name is, case-insensitively, one of the eleven catalog names
and the registry has the key "containment"; two contexts that agree on
whether "containment" is a key get the same return code, whatever else their
registries hold; and `subsystem_exist` returns the same code for every name
passed to it. -/
theorem set_subsystems_use_ok_iff (ctx : resource_context_t) (n : String) :
    ((set_subsystems_use ctx n).1 = 0
      ↔ (is_catalog_name n = true ∧ map_contains ctx.subsystems "containment" = true))
    ∧ (∀ ctx' : resource_context_t,
        map_contains ctx'.subsystems "containment" = map_contains ctx.subsystems "containment" →
        (set_subsystems_use ctx' n).1 = (set_subsystems_use ctx n).1)
    ∧ (∀ q q', subsystem_exist ctx q = subsystem_exist ctx q') := by
  refine ⟨?_, ?_, ?_⟩
  · rw [set_subsystems_use_rc]
    split_ifs with h
    · simp [h]
    · exact ⟨fun h' => absurd h' (by decide), fun h' => absurd h' h⟩
  · intro ctx' h
    rw [set_subsystems_use_rc, set_subsystems_use_rc, h]
  · intro q q'
    rw [subsystem_exist_eq, subsystem_exist_eq]

/-- C10: for every context and matcher name, when `set_subsystems_use` returns
a non-zero code, the context after the call is the context before it with only
the matcher name set to the given name: no pair was added, and the list of
active subsystems is the one before the call. -/
theorem set_subsystems_use_failure_atomic (ctx : resource_context_t) (n : String)
    (h : (set_subsystems_use ctx n).1 ≠ 0) :
    (set_subsystems_use ctx n).2 = { ctx with matcher := { ctx.matcher with m_name := n } }
    ∧ (set_subsystems_use ctx n).2.matcher.m_subsystems = ctx.matcher.m_subsystems := by
  rw [set_subsystems_use_failed ctx n h]
  exact ⟨rfl, rfl⟩

/-- Witness of C10: the multi-step policy "C+P+IBA" on a registry that holds
"power" and "ibnet" but not "containment" fails and adds no pair. -/
theorem set_subsystems_use_failure_atomic_witness :
    (set_subsystems_use (context_with_registry ["power", "ibnet"]) "C+P+IBA").1 ≠ 0
    ∧ (set_subsystems_use (context_with_registry ["power", "ibnet"]) "C+P+IBA").2.matcher.m_subsystems
      = [] :=
  ⟨by decide,
   (set_subsystems_use_failure_atomic (context_with_registry ["power", "ibnet"]) "C+P+IBA"
    (by decide)).2⟩

end flux_resource_model
